import Mathlib

/-!
Shallow embedding of the City-Reporter report-management API
(`src/server/index.tsx`).

A stored report is a JSON object; we model it as a record of optional
fields, where `none` means the field is absent from the object.  The
`imageUrl` field is doubly optional: the outer `Option` is presence of
the field in the object, the inner `Option` is `null` vs. a string
(`some none` = the field is present with the explicit value `null`).

The key-value substrate (`kv_store.tsx`, imported by the server but not
part of the repository sources) is modelled from the spec as an
association list of string keys to stored records, with get / set /
delete / prefix-scan.

JavaScript clock reads (`Date.now()`) are passed in as explicit `Nat`
parameters, one per call site, so that the two separate reads performed
by the create handler are visible in the model.
-/

namespace CityReporter

/-- A persisted report object.  Field names follow the source
(`type` is the category field of the JSON record). -/
structure ReportRec where
  id : Option String
  title : Option String
  description : Option String
  type : Option String
  location : Option String
  imageUrl : Option (Option String)
  status : Option String
  timestamp : Option Int
deriving Repr, DecidableEq

/-- The JSON body of a create request (`POST /reports`).
`none` models an absent field. -/
structure CreateBody where
  title : Option String
  description : Option String
  type : Option String
  location : Option String
  imageUrl : Option String
deriving Repr, DecidableEq

/-- Modelled from the spec: the key-value persistence substrate
(`kv_store.tsx` is imported by the server but missing from the
sources).  The store is an association list of string keys to report
records; spec section 4.1 gives get / set / delete / prefix-scan. -/
abbrev Store := List (String × ReportRec)

/-- Modelled from the spec: `get(key) -> value|absent`. -/
def kvGet (k : String) (st : Store) : Option ReportRec :=
  (st.find? (fun e => e.1 == k)).map (fun e => e.2)

/-- Modelled from the spec: `set(key, value)` — replace the binding for
`k` if present, otherwise append it. -/
def kvSet (k : String) (v : ReportRec) : Store → Store
  | [] => [(k, v)]
  | e :: rest => if e.1 = k then (k, v) :: rest else e :: kvSet k v rest

/-- Modelled from the spec: `delete(key)` — succeeds whether or not the
key existed. -/
def kvDel (k : String) (st : Store) : Store :=
  st.filter (fun e => e.1 != k)

/-- Modelled from the spec: scan of all entries whose key starts with
the given string (`kv.getByPrefix` in the server); "starts with" is
prefix order on the key's characters. -/
def kvScan (p : String) (st : Store) : List (String × ReportRec) :=
  st.filter (fun e => p.data.isPrefixOf e.1.data)

/-- JavaScript truthiness of an optional string: a field is truthy
exactly when it is present and non-empty (`!title` in the source). -/
def truthy (o : Option String) : Bool := o.getD "" != ""

/-- The status values accepted by the PATCH handler
(`['pending', 'in-progress', 'resolved']` in the source). -/
def validStatuses : List String := ["pending", "in-progress", "resolved"]

/-- The report categories of the data model (the `ReportType` union in
the client sources). -/
def validTypes : List String :=
  ["infrastructure", "safety", "environment", "traffic", "public-services", "other"]

/-- Split of a character list at every occurrence of a separator
character, the semantics of JavaScript `String.split(' ')`: splitting
the empty string gives one empty group, and adjacent separators give
empty groups. -/
def splitOnChar (c : Char) : List Char → List (List Char)
  | [] => [[]]
  | x :: xs =>
    if x = c then [] :: splitOnChar c xs
    else
      match splitOnChar c xs with
      | [] => [[x]]
      | g :: gs => (x :: g) :: gs

/-- Bearer-token extraction:
`c.req.header('Authorization')?.split(' ')[1]`. -/
def extractBearer (authHeader : Option String) : Option String :=
  authHeader.bind (fun h => ((splitOnChar ' ' h.data).get? 1).map List.asString)

/-- JavaScript truthiness of the extracted token (`!accessToken`):
falsy when the header is absent, has no second word, or the second
word is empty. -/
def tokenFalsy (t : Option String) : Bool := t.getD "" == ""

/-- Wire response of the report handlers: a success payload carrying a
report, or an error status code. -/
inductive Resp where
  | ok (report : ReportRec)
  | err (code : Nat)
deriving Repr, DecidableEq

/-- Wire response of the delete handler (its success payload is only a
confirmation message). -/
inductive DeleteResp where
  | ok
  | err (code : Nat)
deriving Repr, DecidableEq

/-- The record object built by the create handler: submitted fields
copied through, `imageUrl || null` (a falsy submission becomes the
explicit `null`), status `pending`, id from the first clock read and
timestamp from the second. -/
def newReport (body : CreateBody) (now1 now2 : Nat) : ReportRec :=
  { id := some (toString now1)
    title := body.title
    description := body.description
    type := body.type
    location := body.location
    imageUrl := some (match body.imageUrl with
      | some s => if s = "" then none else some s
      | none => none)
    status := some "pending"
    timestamp := some (Int.ofNat now2) }

/-- `POST /reports`: validate the four required fields by truthiness,
then build and persist the new record.  `now1` is the `Date.now()`
read used for the id, `now2` the separate `Date.now()` read used for
the timestamp. -/
def createReport (body : CreateBody) (now1 now2 : Nat) (st : Store) : Resp × Store :=
  if !truthy body.title || !truthy body.description
      || !truthy body.type || !truthy body.location then
    (.err 400, st)
  else
    (.ok (newReport body now1 now2),
      kvSet ("report:" ++ toString now1) (newReport body now1 now2) st)

/-- `GET /reports/:id`: direct key lookup, 404 when absent. -/
def getReport (i : String) (st : Store) : Resp :=
  match kvGet ("report:" ++ i) st with
  | none => .err 404
  | some r => .ok r

/-- Sort order of the list handler: the comparator
`(b.timestamp || 0) - (a.timestamp || 0)` sorts descending by
timestamp with `0` as the key of a missing timestamp. -/
def sortLe (a b : ReportRec) : Prop :=
  b.timestamp.getD 0 ≤ a.timestamp.getD 0

instance : DecidableRel sortLe :=
  fun _ _ => inferInstanceAs (Decidable (_ ≤ _))

instance : IsTotal ReportRec sortLe :=
  ⟨fun a b => Int.le_total (b.timestamp.getD 0) (a.timestamp.getD 0)⟩

instance : IsTrans ReportRec sortLe :=
  ⟨fun _ _ _ h1 h2 => le_trans h2 h1⟩

/-- `GET /reports`: scan the `report:` keys, return `[]` when there are
none, otherwise unwrap each entry to its stored value (`r.value || r`)
and sort with the descending-timestamp comparator.  The source applies
no validity filter to the entries. -/
def listReports (st : Store) : List ReportRec :=
  let entries := kvScan "report:" st
  if entries.isEmpty then []
  else List.insertionSort sortLe (entries.map (fun e => e.2))

/-- `PATCH /reports/:id/status` behind `requireAdmin`: reject when the
token is falsy or equals the anonymous key, or when the identity
provider cannot resolve it; then validate the status value, look up the
record, and persist a copy that replaces only `status`.
`resolveToken` abstracts the identity provider
(`supabase.auth.getUser`), `anonKey` the `SUPABASE_ANON_KEY`
environment value. -/
def updateStatus (resolveToken : String → Bool) (anonKey : String)
    (authHeader : Option String) (i : String) (status : Option String)
    (st : Store) : Resp × Store :=
  let token := extractBearer authHeader
  if tokenFalsy token || token == some anonKey then (.err 401, st)
  else if !resolveToken (token.getD "") then (.err 401, st)
  else
    match status with
    | none => (.err 400, st)
    | some s =>
      if s == "" || !validStatuses.contains s then (.err 400, st)
      else
        match kvGet ("report:" ++ i) st with
        | none => (.err 404, st)
        | some r =>
          let r' := { r with status := some s }
          (.ok r', kvSet ("report:" ++ i) r' st)

/-- `DELETE /reports/:id` behind `requireAdmin`: same guard, then 404
when the record is absent, otherwise delete the key. -/
def deleteReport (resolveToken : String → Bool) (anonKey : String)
    (authHeader : Option String) (i : String) (st : Store) : DeleteResp × Store :=
  let token := extractBearer authHeader
  if tokenFalsy token || token == some anonKey then (.err 401, st)
  else if !resolveToken (token.getD "") then (.err 401, st)
  else
    match kvGet ("report:" ++ i) st with
    | none => (.err 404, st)
    | some _ => (.ok, kvDel ("report:" ++ i) st)

/-- The five sample reports of `seedDatabase`. -/
def sampleReports : List ReportRec :=
  [ { id := some "1732611600000"
      title := some "Pothole on Main Street"
      description := some "Large pothole causing traffic issues near the intersection with Oak Avenue. Needs immediate attention."
      type := some "infrastructure"
      location := some "Main Street & Oak Avenue"
      imageUrl := some (some "https://images.unsplash.com/photo-1581094794329-c8112a89af12?w=800&q=80")
      status := some "in-progress"
      timestamp := some 1732611600000 },
    { id := some "1732698000000"
      title := some "Broken Street Light"
      description := some "Street light has been out for a week, making the area unsafe at night."
      type := some "safety"
      location := some "Park Avenue, Block 200"
      imageUrl := some (some "https://images.unsplash.com/photo-1513002749550-c59d786b8e6c?w=800&q=80")
      status := some "pending"
      timestamp := some 1732698000000 },
    { id := some "1732179600000"
      title := some "Illegal Dumping"
      description := some "Construction debris dumped in the park area. Environmental hazard."
      type := some "environment"
      location := some "Central Park, East Side"
      imageUrl := some (some "https://images.unsplash.com/photo-1532996122724-e3c354a0b15b?w=800&q=80")
      status := some "resolved"
      timestamp := some 1732179600000 },
    { id := some "1732352400000"
      title := some "Traffic Signal Malfunction"
      description := some "Traffic light stuck on red in all directions causing congestion."
      type := some "traffic"
      location := some "Highway 101 & 5th Street"
      imageUrl := some (some "https://images.unsplash.com/photo-1449824913935-59a10b8d2000?w=800&q=80")
      status := some "in-progress"
      timestamp := some 1732352400000 },
    { id := some "1732784400000"
      title := some "Overflowing Trash Bins"
      description := some "Public trash bins have not been emptied in several days."
      type := some "public-services"
      location := some "Downtown Shopping District"
      imageUrl := some (some "https://images.unsplash.com/photo-1604187351574-c75ca79f5807?w=800&q=80")
      status := some "pending"
      timestamp := some 1732784400000 } ]

/-- `seedDatabase`: insert the five sample reports, but only when the
store holds no `report:` entries. -/
def seedDatabase (st : Store) : Store :=
  if (kvScan "report:" st).length = 0 then
    sampleReports.foldl (fun acc r => kvSet ("report:" ++ r.id.getD "") r acc) st
  else st

/-- An uploaded file as seen by the upload handler: name, content-type
and size in bytes. -/
structure UploadFile where
  name : String
  type : String
  size : Nat
deriving Repr, DecidableEq

/-- Outcome of the upload handler's validation phase: either an early
rejection, or the file proceeds to the blob store (only then are any
bytes sent). -/
inductive UploadOutcome where
  | rejected (code : Nat)
  | proceed (f : UploadFile)
deriving Repr, DecidableEq

/-- The content-types accepted by the upload handler (`image/jpg` is
the alternate spelling of JPEG accepted alongside `image/jpeg`). -/
def allowedTypes : List String :=
  ["image/jpeg", "image/jpg", "image/png", "image/webp"]

/-- `POST /upload` up to the blob-store call: missing file, wrong
content-type, or size above 5242880 bytes are each rejected with 400
before any bytes are sent. -/
def uploadHandler (file : Option UploadFile) : UploadOutcome :=
  match file with
  | none => .rejected 400
  | some f =>
    if !allowedTypes.contains f.type then .rejected 400
    else if f.size > 5242880 then .rejected 400
    else .proceed f

/-- States of the store reachable from the empty store by the
operations that write to it: seeding, create, status update, delete. -/
inductive Reachable : Store → Prop where
  | empty : Reachable []
  | seed {st : Store} : Reachable st → Reachable (seedDatabase st)
  | create {st : Store} (body : CreateBody) (now1 now2 : Nat) :
      Reachable st → Reachable (createReport body now1 now2 st).2
  | update {st : Store} (resolveToken : String → Bool) (anonKey : String)
      (authHeader : Option String) (i : String) (status : Option String) :
      Reachable st → Reachable (updateStatus resolveToken anonKey authHeader i status st).2
  | delete {st : Store} (resolveToken : String → Bool) (anonKey : String)
      (authHeader : Option String) (i : String) :
      Reachable st → Reachable (deleteReport resolveToken anonKey authHeader i st).2

/-- Structural well-formedness of a persisted record as the code
actually enforces it: the four text fields and the category are
present and non-empty, and the status is one of the three valid
values.  (Membership of `type` in the category enumeration is not
enforced by the server.) -/
def storedInv (r : ReportRec) : Prop :=
  truthy r.id = true ∧ truthy r.title = true ∧ truthy r.description = true ∧
  truthy r.location = true ∧ truthy r.type = true ∧
  validStatuses.contains (r.status.getD "") = true

instance : DecidablePred storedInv :=
  fun _ => inferInstanceAs (Decidable (_ ∧ _ ∧ _ ∧ _ ∧ _ ∧ _))

/-! ### Auxiliary facts about the key-value model -/

/-- A decimal numeral is never the empty character list: `toDigitsCore`
never shrinks its accumulator. -/
theorem toDigitsCore_length_le (b : Nat) : ∀ (f n : Nat) (ds : List Char),
    ds.length ≤ (Nat.toDigitsCore b f n ds).length := by
  intro f
  induction f with
  | zero => intro n ds; simp [Nat.toDigitsCore]
  | succ f ih =>
    intro n ds
    simp only [Nat.toDigitsCore]
    split
    · simp
    · exact le_trans (by simp) (ih _ _)

/-- The decimal string of a natural number is non-empty. -/
theorem toString_nat_ne_empty (n : Nat) : toString n ≠ "" := by
  show Nat.repr n ≠ ""
  unfold Nat.repr Nat.toDigits
  intro h
  have hdata : Nat.toDigitsCore 10 (n + 1) n [] = [] := congrArg String.data h
  have h3 : (0 : Nat) < (Nat.toDigitsCore 10 (n + 1) n []).length := by
    simp only [Nat.toDigitsCore]
    split
    · simp
    · calc (0 : Nat) < ([Nat.digitChar (n % 10)]).length := by simp
        _ ≤ _ := toDigitsCore_length_le 10 _ _ _
  rw [hdata] at h3
  simp at h3

/-- Reading back the key just written returns the value written. -/
theorem kvGet_kvSet_self (k : String) (v : ReportRec) :
    ∀ st : Store, kvGet k (kvSet k v st) = some v := by
  intro st
  induction st with
  | nil => simp [kvGet, kvSet, List.find?]
  | cons e rest ih =>
    by_cases h : e.1 = k
    · simp [kvSet, h, kvGet, List.find?]
    · simp only [kvSet, if_neg h]
      simpa [kvGet, List.find?, show (e.1 == k) = false by simpa using h] using ih

/-- Every entry of the store after a `set` is either the written pair
or an entry of the original store. -/
theorem mem_kvSet {k : String} {v : ReportRec} :
    ∀ {st : Store} {e : String × ReportRec},
      e ∈ kvSet k v st → e = (k, v) ∨ e ∈ st := by
  intro st
  induction st with
  | nil => intro e he; simpa [kvSet] using he
  | cons a rest ih =>
    intro e he
    by_cases h : a.1 = k
    · simp only [kvSet, if_pos h] at he
      rcases List.mem_cons.mp he with h1 | h1
      · exact Or.inl h1
      · exact Or.inr (List.mem_cons_of_mem a h1)
    · simp only [kvSet, if_neg h] at he
      rcases List.mem_cons.mp he with h1 | h1
      · exact Or.inr (h1 ▸ List.mem_cons_self a rest)
      · rcases ih h1 with h2 | h2
        · exact Or.inl h2
        · exact Or.inr (List.mem_cons_of_mem a h2)

/-- Deleting a key only removes entries. -/
theorem mem_kvDel {k : String} {st : Store} {e : String × ReportRec} :
    e ∈ kvDel k st → e ∈ st :=
  fun h => List.mem_of_mem_filter h

/-- A successful lookup pairs the key with an entry of the store. -/
theorem kvGet_mem {k : String} {st : Store} {v : ReportRec} :
    kvGet k st = some v → (k, v) ∈ st := by
  intro h
  unfold kvGet at h
  cases hf : st.find? (fun e => e.1 == k) with
  | none => rw [hf] at h; simp at h
  | some e =>
    rw [hf] at h
    simp only [Option.map] at h
    have hk : (e.1 == k) = true := by
      have h1 := List.find?_some hf
      simpa using h1
    have hm : e ∈ st := List.mem_of_find?_eq_some hf
    have : e = (k, v) := by
      cases e with
      | mk a b => simp_all [Prod.ext_iff, eq_of_beq hk]
    exact this ▸ hm

/-- Scanned entries are entries of the store whose key starts with the
prefix string. -/
theorem mem_kvScan {p : String} {st : Store} {e : String × ReportRec} :
    e ∈ kvScan p st ↔ e ∈ st ∧ p.data.isPrefixOf e.1.data = true := by
  unfold kvScan
  exact List.mem_filter

/-- On a request with all four required fields truthy, the create
handler takes its success branch. -/
theorem createReport_valid (body : CreateBody) (now1 now2 : Nat) (st : Store)
    (ht : truthy body.title = true) (hd : truthy body.description = true)
    (hy : truthy body.type = true) (hl : truthy body.location = true) :
    createReport body now1 now2 st =
      (.ok (newReport body now1 now2),
        kvSet ("report:" ++ toString now1) (newReport body now1 now2) st) := by
  unfold createReport
  simp [ht, hd, hy, hl]

/-! ### Claim theorems -/

/-- Sample instances used by the concrete witnesses. -/
def demoBody : CreateBody :=
  { title := some "Pothole"
    description := some "Deep hole"
    type := some "infrastructure"
    location := some "Main St"
    imageUrl := some "https://example.org/p.jpg" }

/-- C1: creating a report whose title, description, type and location
are all non-empty (truthy) and then fetching it by the returned id
yields a record whose title, description, type and location equal the
submitted ones, whose imageUrl keeps a submitted non-empty URL verbatim
(and is the explicit null when no URL was submitted), whose status is
`pending`, and whose id and timestamp are the server clock reads. -/
theorem create_then_get_roundtrip (body : CreateBody) (now1 now2 : Nat) (st : Store)
    (ht : truthy body.title = true) (hd : truthy body.description = true)
    (hy : truthy body.type = true) (hl : truthy body.location = true) :
    ∃ r : ReportRec,
      (createReport body now1 now2 st).1 = .ok r ∧
      getReport (toString now1) (createReport body now1 now2 st).2 = .ok r ∧
      r.id = some (toString now1) ∧
      r.title = body.title ∧
      r.description = body.description ∧
      r.type = body.type ∧
      r.location = body.location ∧
      (∀ s, s ≠ "" → body.imageUrl = some s → r.imageUrl = some (some s)) ∧
      (body.imageUrl = none → r.imageUrl = some none) ∧
      r.status = some "pending" ∧
      r.timestamp = some (Int.ofNat now2) := by
  have hc := createReport_valid body now1 now2 st ht hd hy hl
  refine ⟨newReport body now1 now2, by rw [hc], ?_, rfl, rfl, rfl, rfl, rfl, ?_, ?_, rfl, rfl⟩
  · rw [hc]
    unfold getReport
    rw [kvGet_kvSet_self]
  · intro s hs hbody
    simp [newReport, hbody, hs]
  · intro hnone
    simp [newReport, hnone]

/-- Witness for C1 at a concrete request on the empty store. -/
theorem create_then_get_roundtrip_witness :
    truthy demoBody.title = true ∧ truthy demoBody.description = true ∧
    truthy demoBody.type = true ∧ truthy demoBody.location = true ∧
    (∃ r : ReportRec,
      (createReport demoBody 100 100 []).1 = .ok r ∧
      getReport (toString 100) (createReport demoBody 100 100 []).2 = .ok r ∧
      r.id = some (toString 100) ∧
      r.title = demoBody.title ∧
      r.description = demoBody.description ∧
      r.type = demoBody.type ∧
      r.location = demoBody.location ∧
      (∀ s, s ≠ "" → demoBody.imageUrl = some s → r.imageUrl = some (some s)) ∧
      (demoBody.imageUrl = none → r.imageUrl = some none) ∧
      r.status = some "pending" ∧
      r.timestamp = some (Int.ofNat 100)) :=
  ⟨by decide, by decide, by decide, by decide,
    create_then_get_roundtrip demoBody 100 100 []
      (by decide) (by decide) (by decide) (by decide)⟩

/-- C3: an update-status or delete request whose bearer token is
missing (falsy) or equal to the anonymous key is answered 401 and
leaves the store exactly as it was. -/
theorem mutation_auth_gate (resolveToken : String → Bool) (anonKey : String)
    (authHeader : Option String) (i : String) (status : Option String) (st : Store)
    (h : tokenFalsy (extractBearer authHeader) = true ∨
      extractBearer authHeader = some anonKey) :
    updateStatus resolveToken anonKey authHeader i status st = (.err 401, st) ∧
    deleteReport resolveToken anonKey authHeader i st = (.err 401, st) := by
  have hc : (tokenFalsy (extractBearer authHeader)
      || extractBearer authHeader == some anonKey) = true := by
    rcases h with h | h
    · simp [h]
    · simp [h]
  constructor
  · unfold updateStatus
    simp [hc]
  · unfold deleteReport
    simp [hc]

/-- Witness for C3: no Authorization header at all, on a seeded store. -/
theorem mutation_auth_gate_witness :
    (tokenFalsy (extractBearer none) = true ∨
      extractBearer none = some "public-anon-key") ∧
    updateStatus (fun _ => true) "public-anon-key" none "1" (some "resolved")
      (seedDatabase []) = (.err 401, seedDatabase []) ∧
    deleteReport (fun _ => true) "public-anon-key" none "1"
      (seedDatabase []) = (.err 401, seedDatabase []) :=
  ⟨Or.inl (by decide),
    (mutation_auth_gate (fun _ => true) "public-anon-key" none "1" (some "resolved")
      (seedDatabase []) (Or.inl (by decide))).1,
    (mutation_auth_gate (fun _ => true) "public-anon-key" none "1" (some "resolved")
      (seedDatabase []) (Or.inl (by decide))).2⟩

/-- C4: an authorized update-status request whose status value is
missing, or lies outside the three valid values, is answered 400 and
leaves the store exactly as it was (in particular the record under the
requested id is unchanged). -/
theorem update_invalid_status_rejected (resolveToken : String → Bool) (anonKey : String)
    (authHeader : Option String) (i : String) (status : Option String) (st : Store)
    (hTok : tokenFalsy (extractBearer authHeader) = false)
    (hAnon : (extractBearer authHeader == some anonKey) = false)
    (hRes : resolveToken ((extractBearer authHeader).getD "") = true)
    (hBad : status = none ∨
      ∃ s, status = some s ∧ validStatuses.contains s = false) :
    updateStatus resolveToken anonKey authHeader i status st = (.err 400, st) ∧
    kvGet ("report:" ++ i) (updateStatus resolveToken anonKey authHeader i status st).2 =
      kvGet ("report:" ++ i) st := by
  have hmain : updateStatus resolveToken anonKey authHeader i status st = (.err 400, st) := by
    unfold updateStatus
    rcases hBad with h | ⟨s, hs, hv⟩
    · subst h
      simp [hTok, hAnon, hRes]
    · subst hs
      have hnotmem : s ∉ validStatuses := by simpa using hv
      simp [hTok, hAnon, hRes, hnotmem]
  exact ⟨hmain, by rw [hmain]⟩

/-- Witness for C4: a resolvable token but the unknown status value
`"done"`, on a seeded store. -/
theorem update_invalid_status_rejected_witness :
    tokenFalsy (extractBearer (some "Bearer tok")) = false ∧
    (extractBearer (some "Bearer tok") == some "public-anon-key") = false ∧
    (fun (_ : String) => true) ((extractBearer (some "Bearer tok")).getD "") = true ∧
    (some "done" = none ∨
      ∃ s, (some "done" : Option String) = some s ∧ validStatuses.contains s = false) ∧
    updateStatus (fun _ => true) "public-anon-key" (some "Bearer tok") "1732698000000"
      (some "done") (seedDatabase []) = (.err 400, seedDatabase []) :=
  ⟨by decide, by decide, rfl, Or.inr ⟨"done", rfl, by decide⟩,
    (update_invalid_status_rejected (fun _ => true) "public-anon-key" (some "Bearer tok")
      "1732698000000" (some "done") (seedDatabase []) (by decide) (by decide) rfl
      (Or.inr ⟨"done", rfl, by decide⟩)).1⟩

/-- C5: an authorized update-status request with a valid status on an
existing report persists and returns exactly the stored record with
only its status field replaced; id, title, description, location,
type, timestamp and imageUrl are unchanged. -/
theorem update_status_frame (resolveToken : String → Bool) (anonKey : String)
    (authHeader : Option String) (i : String) (s : String) (st : Store) (r : ReportRec)
    (hTok : tokenFalsy (extractBearer authHeader) = false)
    (hAnon : (extractBearer authHeader == some anonKey) = false)
    (hRes : resolveToken ((extractBearer authHeader).getD "") = true)
    (hs : validStatuses.contains s = true)
    (hr : kvGet ("report:" ++ i) st = some r) :
    updateStatus resolveToken anonKey authHeader i (some s) st =
      (.ok { r with status := some s },
        kvSet ("report:" ++ i) { r with status := some s } st) ∧
    kvGet ("report:" ++ i) (updateStatus resolveToken anonKey authHeader i (some s) st).2 =
      some { r with status := some s } ∧
    ({ r with status := some s } : ReportRec).id = r.id ∧
    ({ r with status := some s } : ReportRec).title = r.title ∧
    ({ r with status := some s } : ReportRec).description = r.description ∧
    ({ r with status := some s } : ReportRec).location = r.location ∧
    ({ r with status := some s } : ReportRec).type = r.type ∧
    ({ r with status := some s } : ReportRec).timestamp = r.timestamp ∧
    ({ r with status := some s } : ReportRec).imageUrl = r.imageUrl := by
  have hne : ¬s = "" := by
    intro h
    subst h
    simp [validStatuses] at hs
  have hmem : s ∈ validStatuses := by simpa using hs
  have hmain : updateStatus resolveToken anonKey authHeader i (some s) st =
      (.ok { r with status := some s },
        kvSet ("report:" ++ i) { r with status := some s } st) := by
    unfold updateStatus
    simp [hTok, hAnon, hRes, hne, hmem, hr]
  refine ⟨hmain, ?_, rfl, rfl, rfl, rfl, rfl, rfl, rfl⟩
  rw [hmain]
  exact kvGet_kvSet_self _ _ _

/-- Witness for C5: marking the seeded broken-street-light report
resolved. -/
theorem update_status_frame_witness :
    tokenFalsy (extractBearer (some "Bearer tok")) = false ∧
    (extractBearer (some "Bearer tok") == some "public-anon-key") = false ∧
    validStatuses.contains "resolved" = true ∧
    kvGet "report:1732698000000" (seedDatabase []) =
      some (sampleReports.get ⟨1, by decide⟩) ∧
    updateStatus (fun _ => true) "public-anon-key" (some "Bearer tok") "1732698000000"
      (some "resolved") (seedDatabase []) =
      (.ok { sampleReports.get ⟨1, by decide⟩ with status := some "resolved" },
        kvSet "report:1732698000000"
          { sampleReports.get ⟨1, by decide⟩ with status := some "resolved" }
          (seedDatabase [])) :=
  ⟨by decide, by decide, by decide, by decide,
    (update_status_frame (fun _ => true) "public-anon-key" (some "Bearer tok")
      "1732698000000" "resolved" (seedDatabase []) (sampleReports.get ⟨1, by decide⟩)
      (by decide) (by decide) rfl (by decide) (by decide)).1⟩

/-- C8 counterexample: the create handler reads the clock once for the
id and again for the timestamp; when the millisecond counter advances
between the two reads, a successful creation stores an id that is not
the decimal string of the timestamp. -/
theorem create_two_clock_reads_counterexample :
    (createReport demoBody 1000 1001 []).1 = .ok (newReport demoBody 1000 1001) ∧
    (newReport demoBody 1000 1001).id = some "1000" ∧
    (newReport demoBody 1000 1001).timestamp = some 1001 ∧
    some "1000" ≠ some (toString (1001 : Int)) :=
  ⟨by decide, rfl, rfl, by decide⟩

/-- C8 amended: the id is the decimal string of the first clock read
and the timestamp is the second clock read; whenever the two reads
return the same millisecond — the intended, usual case — the id of the
created report equals the decimal-string representation of its
timestamp. -/
theorem create_id_matches_timestamp_same_read (body : CreateBody) (now : Nat) (st : Store)
    (ht : truthy body.title = true) (hd : truthy body.description = true)
    (hy : truthy body.type = true) (hl : truthy body.location = true) :
    ∃ r : ReportRec,
      (createReport body now now st).1 = .ok r ∧
      r.timestamp = some (Int.ofNat now) ∧
      r.id = some (toString (Int.ofNat now)) := by
  have hc := createReport_valid body now now st ht hd hy hl
  exact ⟨newReport body now now, by rw [hc], rfl, rfl⟩

/-- Witness for the amended C8 at a single concrete clock read. -/
theorem create_id_matches_timestamp_same_read_witness :
    truthy demoBody.title = true ∧ truthy demoBody.description = true ∧
    truthy demoBody.type = true ∧ truthy demoBody.location = true ∧
    (∃ r : ReportRec,
      (createReport demoBody 1732611600000 1732611600000 []).1 = .ok r ∧
      r.timestamp = some (Int.ofNat 1732611600000) ∧
      r.id = some (toString (Int.ofNat 1732611600000))) :=
  ⟨by decide, by decide, by decide, by decide,
    create_id_matches_timestamp_same_read demoBody 1732611600000 []
      (by decide) (by decide) (by decide) (by decide)⟩

/-- C9: a file whose content-type is an accepted image type
(`image/jpeg` — also under its alternate spelling `image/jpg` —
`image/png` or `image/webp`) of at most 5242880 bytes passes
validation and proceeds to the blob store, while a larger file, or one
of any other content-type, is rejected with 400 before any bytes are
sent (a `rejected` outcome is produced strictly before the blob-store
call in the handler). -/
theorem upload_validation_bounds (f : UploadFile) :
    (allowedTypes.contains f.type = true → f.size ≤ 5242880 →
      uploadHandler (some f) = .proceed f) ∧
    (allowedTypes.contains f.type = false ∨ 5242881 ≤ f.size →
      uploadHandler (some f) = .rejected 400) := by
  constructor
  · intro h1 h2
    have hm : f.type ∈ allowedTypes := by simpa using h1
    have h3 : ¬f.size > 5242880 := by omega
    simp [uploadHandler, hm, h3]
  · intro h
    rcases h with h | h
    · have hm : f.type ∉ allowedTypes := by simpa using h
      simp [uploadHandler, hm]
    · have h3 : f.size > 5242880 := by omega
      by_cases hm : f.type ∈ allowedTypes
      · simp [uploadHandler, hm, h3]
      · simp [uploadHandler, hm]

/-- Witness for C9: a 5242880-byte JPEG is accepted, a 5242881-byte
JPEG is rejected. -/
theorem upload_validation_bounds_witness :
    allowedTypes.contains "image/jpeg" = true ∧
    (5242880 : Nat) ≤ 5242880 ∧
    uploadHandler (some ⟨"a.jpg", "image/jpeg", 5242880⟩) =
      .proceed ⟨"a.jpg", "image/jpeg", 5242880⟩ ∧
    (allowedTypes.contains "image/jpeg" = false ∨ (5242881 : Nat) ≤ 5242881) ∧
    uploadHandler (some ⟨"a.jpg", "image/jpeg", 5242881⟩) = .rejected 400 :=
  ⟨by decide, by decide,
    (upload_validation_bounds ⟨"a.jpg", "image/jpeg", 5242880⟩).1 (by decide) (by decide),
    Or.inr (by decide),
    (upload_validation_bounds ⟨"a.jpg", "image/jpeg", 5242881⟩).2 (Or.inr (by decide))⟩

/-- C10: a successful creation whose body omits imageUrl, or supplies
the falsy empty string for it, persists and returns a report whose
imageUrl field is present with the explicit value null (`some none`:
the field exists on the stored object and its value is null). -/
theorem create_missing_imageUrl_null (body : CreateBody) (now1 now2 : Nat) (st : Store)
    (ht : truthy body.title = true) (hd : truthy body.description = true)
    (hy : truthy body.type = true) (hl : truthy body.location = true)
    (hImg : body.imageUrl = none ∨ body.imageUrl = some "") :
    ∃ r : ReportRec,
      (createReport body now1 now2 st).1 = .ok r ∧
      r.imageUrl = some none ∧
      kvGet ("report:" ++ toString now1) (createReport body now1 now2 st).2 = some r := by
  have hc := createReport_valid body now1 now2 st ht hd hy hl
  refine ⟨newReport body now1 now2, by rw [hc], ?_, by rw [hc]; exact kvGet_kvSet_self _ _ _⟩
  rcases hImg with h | h
  · simp [newReport, h]
  · simp [newReport, h]

/-- Witness for C10 at a concrete request with no imageUrl field. -/
theorem create_missing_imageUrl_null_witness :
    truthy (demoBody.title) = true ∧
    ({ demoBody with imageUrl := none } : CreateBody).imageUrl = none ∧
    (∃ r : ReportRec,
      (createReport { demoBody with imageUrl := none } 100 100 []).1 = .ok r ∧
      r.imageUrl = some none ∧
      kvGet ("report:" ++ toString 100)
        (createReport { demoBody with imageUrl := none } 100 100 []).2 = some r) :=
  ⟨by decide, rfl,
    create_missing_imageUrl_null { demoBody with imageUrl := none } 100 100 []
      (by decide) (by decide) (by decide) (by decide) (Or.inl rfl)⟩

/-- C2: the list handler returns a permutation of the stored report
entries, arranged in descending order of timestamp with 0 as the sort
key of a missing timestamp (consecutive results `a` then `b` satisfy
`b.timestamp.getD 0 ≤ a.timestamp.getD 0`), and returns the empty
sequence when the store holds no report entries. -/
theorem list_reports_sorted_desc (st : Store) :
    (listReports st).Perm ((kvScan "report:" st).map (fun e => e.2)) ∧
    List.Pairwise sortLe (listReports st) ∧
    (kvScan "report:" st = [] → listReports st = []) := by
  refine ⟨?_, ?_, ?_⟩
  · unfold listReports
    by_cases h : (kvScan "report:" st).isEmpty
    · rw [List.isEmpty_iff] at h
      simp [h]
    · simp only [h, Bool.false_eq_true, if_false]
      exact List.perm_insertionSort sortLe _
  · unfold listReports
    by_cases h : (kvScan "report:" st).isEmpty
    · simp [h]
    · simp only [h, Bool.false_eq_true, if_false]
      exact List.sorted_insertionSort sortLe _
  · intro h
    simp [listReports, h]

/-- Witness for C2 on a three-report store held in ascending order:
the listing is the descending permutation. -/
theorem list_reports_sorted_desc_witness :
    listReports
      [("report:1", ⟨some "1", some "a", some "x", some "other", some "p", some none, some "pending", some 10⟩),
       ("other:9", ⟨some "9", some "z", some "x", some "other", some "p", some none, some "pending", some 99⟩),
       ("report:2", ⟨some "2", some "b", some "x", some "other", some "p", some none, some "pending", none⟩),
       ("report:3", ⟨some "3", some "c", some "x", some "other", some "p", some none, some "pending", some 30⟩)] =
      [⟨some "3", some "c", some "x", some "other", some "p", some none, some "pending", some 30⟩,
       ⟨some "1", some "a", some "x", some "other", some "p", some none, some "pending", some 10⟩,
       ⟨some "2", some "b", some "x", some "other", some "p", some none, some "pending", none⟩] ∧
    List.Pairwise sortLe
      (listReports
        [("report:1", ⟨some "1", some "a", some "x", some "other", some "p", some none, some "pending", some 10⟩),
         ("other:9", ⟨some "9", some "z", some "x", some "other", some "p", some none, some "pending", some 99⟩),
         ("report:2", ⟨some "2", some "b", some "x", some "other", some "p", some none, some "pending", none⟩),
         ("report:3", ⟨some "3", some "c", some "x", some "other", some "p", some none, some "pending", some 30⟩)]) :=
  ⟨by decide,
    (list_reports_sorted_desc
      [("report:1", ⟨some "1", some "a", some "x", some "other", some "p", some none, some "pending", some 10⟩),
       ("other:9", ⟨some "9", some "z", some "x", some "other", some "p", some none, some "pending", some 99⟩),
       ("report:2", ⟨some "2", some "b", some "x", some "other", some "p", some none, some "pending", none⟩),
       ("report:3", ⟨some "3", some "c", some "x", some "other", some "p", some none, some "pending", some 30⟩)]).2.1⟩

/-- A stored record with every field absent, for exercising the list
handler on structurally invalid entries. -/
def noFieldsRec : ReportRec :=
  ⟨none, none, none, none, none, none, none, none⟩

/-- C7 counterexample: the list handler applies no validity filter —
a stored entry with no id and no title is returned, not excluded. -/
theorem list_reports_no_filter_counterexample :
    noFieldsRec.id = none ∧ noFieldsRec.title = none ∧
    listReports [("report:x", noFieldsRec)] = [noFieldsRec] :=
  ⟨rfl, rfl, by decide⟩

/-- C7 amended: the list handler returns every stored entry whose key
carries the report prefix, with no structural-validity filtering:
entries missing an id or a title are included in the result as well. -/
theorem list_reports_returns_invalid_entries (st : Store) (k : String) (r : ReportRec)
    (hk : ("report:").data.isPrefixOf k.data = true) (hm : (k, r) ∈ st) :
    r ∈ listReports st := by
  have hscan : (k, r) ∈ kvScan "report:" st := mem_kvScan.mpr ⟨hm, hk⟩
  have hmap : r ∈ (kvScan "report:" st).map (fun e => e.2) :=
    List.mem_map.mpr ⟨(k, r), hscan, rfl⟩
  have hne : (kvScan "report:" st).isEmpty = false := by
    cases hs : kvScan "report:" st with
    | nil => rw [hs] at hscan; simp at hscan
    | cons a l => simp
  unfold listReports
  simp only [hne, Bool.false_eq_true, if_false]
  simpa using hmap

/-- Witness for the amended C7: the all-fields-absent record is in the
listing of a store that contains it. -/
theorem list_reports_returns_invalid_entries_witness :
    ("report:").data.isPrefixOf ("report:x").data = true ∧
    ("report:x", noFieldsRec) ∈
      ([("report:x", noFieldsRec)] : Store) ∧
    noFieldsRec ∈ listReports [("report:x", noFieldsRec)] :=
  ⟨by decide, by decide,
    list_reports_returns_invalid_entries [("report:x", noFieldsRec)] "report:x" noFieldsRec
      (by decide) (by decide)⟩

/-- Writing an invariant-satisfying record preserves the store
invariant. -/
theorem storeInv_kvSet {st : Store} {k : String} {v : ReportRec}
    (hst : ∀ e ∈ st, storedInv e.2) (hv : storedInv v) :
    ∀ e ∈ kvSet k v st, storedInv e.2 := by
  intro e he
  rcases mem_kvSet he with h | h
  · rw [h]
    exact hv
  · exact hst e h

/-- The record built from a validated create request satisfies the
store invariant. -/
theorem storedInv_newReport (body : CreateBody) (now1 now2 : Nat)
    (ht : truthy body.title = true) (hd : truthy body.description = true)
    (hy : truthy body.type = true) (hl : truthy body.location = true) :
    storedInv (newReport body now1 now2) := by
  refine ⟨?_, ht, hd, hl, hy, rfl⟩
  have h := toString_nat_ne_empty now1
  simp [truthy, newReport, h]

/-- C6 amended: every state reachable from the empty store by seeding,
creation, status update and deletion persists only reports with a
present non-empty id, title, description, location and type, and a
status among pending, in-progress and resolved.  (The server does not
constrain the type to the category enumeration, so enumeration
membership of `type` is not part of the invariant.) -/
theorem reachable_store_invariant (st : Store) (h : Reachable st) :
    ∀ e ∈ st, storedInv e.2 := by
  induction h with
  | empty =>
    intro e he
    simp at he
  | seed h ih =>
    unfold seedDatabase
    split
    · simp only [sampleReports, List.foldl]
      exact storeInv_kvSet (storeInv_kvSet (storeInv_kvSet (storeInv_kvSet
        (storeInv_kvSet ih (by decide)) (by decide)) (by decide)) (by decide)) (by decide)
    · exact ih
  | create body now1 now2 h ih =>
    by_cases hv : (!truthy body.title || !truthy body.description
        || !truthy body.type || !truthy body.location) = true
    · unfold createReport
      simp only [hv, if_true]
      exact ih
    · have hfalse : (!truthy body.title || !truthy body.description
          || !truthy body.type || !truthy body.location) = false := by
        simpa using hv
      simp only [Bool.or_eq_false_iff, Bool.not_eq_false'] at hfalse
      obtain ⟨⟨⟨ht, hd⟩, hy⟩, hl⟩ := hfalse
      rw [createReport_valid body now1 now2 _ ht hd hy hl]
      exact storeInv_kvSet ih (storedInv_newReport body now1 now2 ht hd hy hl)
  | @update st rt ak ah i s h ih =>
    unfold updateStatus
    by_cases h1 : (tokenFalsy (extractBearer ah) || extractBearer ah == some ak) = true
    · simp only [h1, if_true]
      exact ih
    · have h1f : (tokenFalsy (extractBearer ah) || extractBearer ah == some ak) = false := by
        simpa using h1
      simp only [h1f, Bool.false_eq_true, if_false]
      by_cases h2 : (!rt ((extractBearer ah).getD "")) = true
      · simp only [h2, if_true]
        exact ih
      · have h2f : (!rt ((extractBearer ah).getD "")) = false := by simpa using h2
        simp only [h2f, Bool.false_eq_true, if_false]
        cases s with
        | none => exact ih
        | some sv =>
          by_cases h3 : (sv == "" || !validStatuses.contains sv) = true
          · simp only [h3, if_true]
            exact ih
          · have h3f : (sv == "" || !validStatuses.contains sv) = false := by simpa using h3
            simp only [h3f, Bool.false_eq_true, if_false]
            have hcontains : validStatuses.contains sv = true := by
              simp only [Bool.or_eq_false_iff, Bool.not_eq_false'] at h3f
              exact h3f.2
            cases hget : kvGet ("report:" ++ i) st with
            | none =>
              simp only [hget]
              exact ih
            | some r =>
              simp only [hget]
              have hrInv : storedInv r := ih _ (kvGet_mem hget)
              intro e he
              rcases mem_kvSet he with hE | hE
              · rw [hE]
                exact ⟨hrInv.1, hrInv.2.1, hrInv.2.2.1, hrInv.2.2.2.1,
                  hrInv.2.2.2.2.1, by simpa using hcontains⟩
              · exact ih e hE
  | delete rt ak ah i h ih =>
    simp only [deleteReport]
    split
    · exact ih
    · split
      · exact ih
      · split
        · exact ih
        · intro e he
          exact ih e (mem_kvDel he)

/-- Witness for the amended C6 on the seeded store. -/
theorem reachable_store_invariant_witness :
    Reachable (seedDatabase []) ∧
    storedInv (sampleReports.get ⟨0, by decide⟩) :=
  ⟨Reachable.seed Reachable.empty,
    reachable_store_invariant (seedDatabase []) (Reachable.seed Reachable.empty)
      ("report:1732611600000", sampleReports.get ⟨0, by decide⟩) (by decide)⟩

/-- A create request whose category lies outside the type
enumeration; the handler only checks the field for truthiness. -/
def badTypeBody : CreateBody :=
  { title := some "Graffiti"
    description := some "Tag on the wall"
    type := some "weird-type"
    location := some "Wall St"
    imageUrl := none }

/-- C6 counterexample: from the empty store, one successful create
request reaches a state persisting a report whose type lies outside
the category enumeration, because the create handler never checks the
category against it. -/
theorem reachable_invalid_type_counterexample :
    Reachable (createReport badTypeBody 5 6 []).2 ∧
    (createReport badTypeBody 5 6 []).2 = [("report:5", newReport badTypeBody 5 6)] ∧
    (newReport badTypeBody 5 6).type = some "weird-type" ∧
    validTypes.contains "weird-type" = false :=
  ⟨Reachable.create badTypeBody 5 6 Reachable.empty, by decide, rfl, by decide⟩

end CityReporter
